import Mathlib

/-!
Shallow embedding of the Conversational IVR backend
(`app.py`, `src/routes/routes.py`, `src/services/intent_service.py`,
`src/services/speech_service.py`).

The external providers (Azure Speech, Azure OpenAI, ElevenLabs) are modelled
as explicit outcome parameters: each handler takes as input the outcome of
the provider calls it would perform, and the embedding reproduces exactly the
error handling, state updates and response construction of the Python code.
Python dicts keyed by session id are modelled as association lists; Python
string truthiness (`if not s` for a str) is modelled as `s = ""`; Python
`str.strip()` is modelled as `String.trim`.
-/

namespace CIVR

/-- One conversation entry `{"role": ..., "content": ...}`, also used for
the chat-completion message dicts built in `generate_response`. -/
structure Turn where
  role : String
  content : String
deriving DecidableEq, Repr

/-- Association-list lookup, modelling Python `dict.get(k)` /
`dict[k]` reads. -/
def dictGet {α : Type} (m : List (String × α)) (k : String) : Option α :=
  match m with
  | [] => none
  | (k', v) :: rest => if k' = k then some v else dictGet rest k

/-- Modelling Python `del d[k]`: removes every binding for `k`. -/
def dictDel {α : Type} (m : List (String × α)) (k : String) : List (String × α) :=
  match m with
  | [] => []
  | (k', v) :: rest => if k' = k then dictDel rest k else (k', v) :: dictDel rest k

/-- Modelling Python `d[k] = v`: after this, `d.get(k) = v` and all other
keys are unchanged. -/
def dictSet {α : Type} (m : List (String × α)) (k : String) (v : α) :
    List (String × α) :=
  (k, v) :: dictDel m k

theorem dictGet_dictSet_self {α : Type} (m : List (String × α)) (k : String) (v : α) :
    dictGet (dictSet m k v) k = some v := by
  simp [dictSet, dictGet]

theorem dictGet_dictDel_self {α : Type} (m : List (String × α)) (k : String) :
    dictGet (dictDel m k) k = none := by
  induction m with
  | nil => simp [dictDel, dictGet]
  | cons p rest ih =>
    obtain ⟨k', v⟩ := p
    by_cases h : k' = k
    · simpa [dictDel, h] using ih
    · simpa [dictDel, dictGet, h] using ih

theorem dictGet_dictDel_ne {α : Type} (m : List (String × α)) (k k' : String)
    (h : k' ≠ k) : dictGet (dictDel m k) k' = dictGet m k' := by
  induction m with
  | nil => simp [dictDel]
  | cons p rest ih =>
    obtain ⟨k'', v⟩ := p
    by_cases hk : k'' = k
    · subst hk
      simp [dictDel, dictGet, Ne.symm h, ih]
    · by_cases hk' : k'' = k'
      · subst hk'
        simp [dictDel, dictGet, h]
      · simp [dictDel, hk, dictGet, hk', ih]

theorem dictGet_dictSet_ne {α : Type} (m : List (String × α)) (k k' : String)
    (v : α) (h : k' ≠ k) : dictGet (dictSet m k v) k' = dictGet m k' := by
  have hne : k ≠ k' := fun hc => h hc.symm
  simp [dictSet, dictGet, hne, dictGet_dictDel_ne m k k' h]

/-- The in-memory per-process stores of the Flask app:
`conversation_sessions` (session id ↦ turn history) and
`live_transcripts` (session id ↦ accumulated transcript buffer). -/
structure ServerState where
  conversation_sessions : List (String × List Turn)
  live_transcripts : List (String × String)
deriving DecidableEq, Repr

/-- The Session Store read used by `converse`
(`conversation_sessions` initialised to `[]` when the session is unknown). -/
def get_history (st : ServerState) (session_id : String) : List Turn :=
  (dictGet st.conversation_sessions session_id).getD []

/-- Result of `IntentService.classify_intent`: the dict
`{"intent": ..., "confidence": ..., "reasoning": ...}`.  The float
`confidence` is modelled as a rational; the error paths only ever
produce the literal `0.0`. -/
structure IntentResult where
  intent : String
  confidence : ℚ
  reasoning : String
deriving DecidableEq, Repr

/-- Outcome of the classification chat-completion call (including the
`eval` of the returned content): either a parsed result dict, or any
raised exception with its message. -/
inductive ClassifyOutcome where
  | success (r : IntentResult)
  | failure (errMsg : String)
deriving DecidableEq, Repr

/-- Outcome of the generation chat-completion call: the returned content
string (before `.strip()`), or any raised exception. -/
inductive GenOutcome where
  | success (content : String)
  | failure (errMsg : String)
deriving DecidableEq, Repr

/-- `IntentService.classify_intent`.  `clientConfigured` models
`self.client` being non-`None`; `provider` models the Azure OpenAI
chat-completion call (plus `eval` of its content) on the user message. -/
def classify_intent (clientConfigured : Bool)
    (provider : String → ClassifyOutcome) (user_message : String) : IntentResult :=
  if clientConfigured = false then
    { intent := "other", confidence := 0, reasoning := "OpenAI not configured" }
  else
    match provider user_message with
    | ClassifyOutcome.success r => r
    | ClassifyOutcome.failure e =>
        { intent := "other", confidence := 0, reasoning := "Error: " ++ e }

/-- The `"question"` system prompt of `IntentService.generate_response`. -/
def question_prompt : String :=
  "You are a helpful virtual assistant. The user has asked a question.\n            Provide a clear, concise, and helpful response. If you need more context, ask a follow-up question.\n            Be conversational and natural in your response."

/-- The `"complaint"` system prompt of `IntentService.generate_response`. -/
def complaint_prompt : String :=
  "You are an empathetic customer service assistant. The user has raised a complaint or concern.\n            Acknowledge their concern, show empathy, and offer to help resolve the issue.\n            Be warm, understanding, and professional in your response."

/-- The `"other"` system prompt of `IntentService.generate_response`. -/
def other_prompt : String :=
  "You are a friendly and professional virtual assistant.\n            Engage naturally with the user. Keep responses brief and conversational.\n            If appropriate, you can ask how you can help them today."

/-- The `system_prompts` dict of `IntentService.generate_response`. -/
def system_prompts : List (String × String) :=
  [("question", question_prompt), ("complaint", complaint_prompt), ("other", other_prompt)]

/-- `system_prompts.get(intent, system_prompts["other"])`. -/
def select_system_prompt (intent : String) : String :=
  (dictGet system_prompts intent).getD other_prompt

/-- The fixed reply of `generate_response` when the OpenAI client is not
configured. -/
def not_configured_reply : String :=
  "I'm sorry, but I'm having trouble processing your request right now."

/-- The fixed apology substituted by `generate_response` when the
generation call raises. -/
def generation_error_reply : String :=
  "I apologize, but I'm having trouble understanding. Could you please rephrase that?"

/-- Python `str.strip()` on a character list: drop leading and trailing
whitespace. -/
def stripChars (l : List Char) : List Char :=
  ((l.dropWhile Char.isWhitespace).reverse.dropWhile Char.isWhitespace).reverse

/-- Python `str.strip()`: remove surrounding whitespace from a string. -/
def pyStrip (s : String) : String :=
  ⟨stripChars s.data⟩

/-- Python `l[-6:]`: the last `n` elements of a list (the whole list when
it is shorter than `n`). -/
def takeLast {α : Type} (n : Nat) (l : List α) : List α :=
  l.drop (l.length - n)

/-- The `messages` list built by `IntentService.generate_response`:
the intent-selected system prompt, then `conversation_history[-6:]`,
then the current user message. -/
def generate_messages (user_message intent : String)
    (conversation_history : List Turn) : List Turn :=
  { role := "system", content := select_system_prompt intent }
    :: (takeLast 6 conversation_history ++ [{ role := "user", content := user_message }])

/-- `IntentService.generate_response`.  `provider` models the Azure OpenAI
chat-completion call on the built `messages` list; on success the content
is `.strip()`-ed, on any exception the fixed apology is returned, and when
the client is not configured the function returns early. -/
def generate_response (clientConfigured : Bool)
    (provider : List Turn → GenOutcome) (user_message intent : String)
    (conversation_history : List Turn) : String :=
  if clientConfigured = false then not_configured_reply
  else
    match provider (generate_messages user_message intent conversation_history) with
    | GenOutcome.success content => pyStrip content
    | GenOutcome.failure _ => generation_error_reply

/-- Response of the `/api/converse` handler: either the 400 client error
(`{"error": "No message provided"}`) or the success JSON body. -/
inductive ConverseResponse where
  | invalidInput (error : String)
  | ok (intent : String) (confidence : ℚ) (reasoning : String) (response : String)
deriving DecidableEq, Repr

/-- The `/api/converse` handler (identical in `app.py` and
`src/routes/routes.py`).  Python's `if not user_message` on a string is
exactly `user_message = ""` (a whitespace-only string is truthy).  Lazy
initialisation of `conversation_sessions[session_id]` followed by the two
mutating appends is modelled by one functional update setting the history
to `old ++ [user, assistant]`. -/
def converse (st : ServerState) (clientConfigured : Bool)
    (classifyProvider : String → ClassifyOutcome)
    (genProvider : List Turn → GenOutcome)
    (user_message session_id : String) : ConverseResponse × ServerState :=
  if user_message = "" then
    (ConverseResponse.invalidInput "No message provided", st)
  else
    let conversation_history := get_history st session_id
    let intent_result := classify_intent clientConfigured classifyProvider user_message
    let bot_response := generate_response clientConfigured genProvider user_message
        intent_result.intent conversation_history
    let new_history := conversation_history ++
        [{ role := "user", content := user_message },
         { role := "assistant", content := bot_response }]
    (ConverseResponse.ok intent_result.intent intent_result.confidence
        intent_result.reasoning bot_response,
     { st with conversation_sessions :=
         dictSet st.conversation_sessions session_id new_history })

/-- The `/api/clear-session` handler: `del` the session's history when
present, no-op otherwise. -/
def clear_session (st : ServerState) (session_id : String) : ServerState :=
  if (dictGet st.conversation_sessions session_id).isSome then
    { st with conversation_sessions := dictDel st.conversation_sessions session_id }
  else st

/-- The `/api/stream/start` handler: `live_transcripts[session_id] = ""`. -/
def stream_start (st : ServerState) (session_id : String) : ServerState :=
  { st with live_transcripts := dictSet st.live_transcripts session_id "" }

/-- Response body of `/api/stream/chunk`: the per-chunk recognised text
(`partial` in the JSON, `partial_text` in the code) and the accumulated
transcript. -/
structure StreamChunkResponse where
  chunkText : String
  transcript : String
deriving DecidableEq, Repr

/-- The `/api/stream/chunk` handler, on the path where an audio file is
present.  `transcription` is the value returned by
`SpeechService.transcribe_audio_stream` for this chunk (`none` on any
recognition miss or error); the code turns it into `""` via `or ""`,
lazily initialises the session buffer, and on non-empty text sets the
buffer to `(buffer + " " + text).strip()`. -/
def stream_chunk (st : ServerState) (transcription : Option String)
    (session_id : String) : StreamChunkResponse × ServerState :=
  let chunkText := transcription.getD ""
  let st1 :=
    if dictGet st.live_transcripts session_id = none then
      { st with live_transcripts := dictSet st.live_transcripts session_id "" }
    else st
  let newBuffer := pyStrip ((dictGet st1.live_transcripts session_id).getD "" ++ " " ++ chunkText)
  let st2 :=
    if chunkText ≠ "" then
      { st1 with live_transcripts := dictSet st1.live_transcripts session_id newBuffer }
    else st1
  ({ chunkText := chunkText,
     transcript := (dictGet st2.live_transcripts session_id).getD "" }, st2)

/-- The `/api/stream/status` handler: `live_transcripts.get(session_id, "")`,
returned together with the (unchanged) server state. -/
def stream_status (st : ServerState) (session_id : String) : String × ServerState :=
  ((dictGet st.live_transcripts session_id).getD "", st)

/-- The `/api/stream/stop` handler: also
`live_transcripts.get(session_id, "")`, with no state change. -/
def stream_stop (st : ServerState) (session_id : String) : String × ServerState :=
  ((dictGet st.live_transcripts session_id).getD "", st)

/-- Outcome of the provider-facing part of a Transport Adapter operation:
either it completed with a value, or some exception was raised during it
(network error, unsupported audio, file I/O, ...). -/
inductive CallOutcome (α : Type) where
  | ok (a : α)
  | exn (errMsg : String)
deriving DecidableEq, Repr

/-- The Azure recognition result as observed by
`transcribe_audio_stream`: the SDK object's `result.reason.name` string
and its `result.text`. -/
structure RecognitionResult where
  reasonName : String
  text : String
deriving DecidableEq, Repr

/-- `SpeechService.transcribe_audio_stream`.  The `Except` layer records
whether an exception escapes to the caller: `.ok` is a normal return,
`.error` would be an uncaught exception.  The code returns `None` early
when Azure Speech is unconfigured, catches every exception from the
try block and returns `None`, returns `result.text` when
`result.reason.name == "ResultReason.RecognizedSpeech"`, and `None` on
`NoMatch` or any other reason. -/
def transcribe_audio_stream (speechConfigured : Bool)
    (call : CallOutcome RecognitionResult) : Except String (Option String) :=
  if speechConfigured = false then Except.ok none
  else
    match call with
    | CallOutcome.exn _ => Except.ok none
    | CallOutcome.ok result =>
        if result.reasonName = "ResultReason.RecognizedSpeech" then
          Except.ok (some result.text)
        else if result.reasonName = "ResultReason.NoMatch" then
          Except.ok none
        else
          Except.ok none

/-- `SpeechService.text_to_speech`.  The HTTP POST to ElevenLabs is
modelled by its outcome: `(status_code, body bytes)` or a raised
exception; the code returns the body on 200, `None` on any other status,
`None` when the API key is missing, and catches every exception. -/
def text_to_speech (apiKeyConfigured : Bool)
    (call : CallOutcome (Nat × List Nat)) : Except String (Option (List Nat)) :=
  if apiKeyConfigured = false then Except.ok none
  else
    match call with
    | CallOutcome.exn _ => Except.ok none
    | CallOutcome.ok response =>
        if response.1 = 200 then Except.ok (some response.2)
        else Except.ok none

/-- A classification provider that always fails (used to instantiate
theorems at concrete inputs). -/
def noProviderClassify : String → ClassifyOutcome :=
  fun _ => ClassifyOutcome.failure "unavailable"

/-- A generation provider that always fails (used to instantiate theorems
at concrete inputs). -/
def noProviderGen : List Turn → GenOutcome :=
  fun _ => GenOutcome.failure "unavailable"

/-- C8: for every session id and accumulator state, `stream_stop` returns
exactly what `stream_status` returns, leaves the state unchanged, and a
subsequent `stream_status` still returns the same buffer value. -/
theorem stream_stop_equals_status (st : ServerState) (session_id : String) :
    stream_stop st session_id = stream_status st session_id ∧
    (stream_stop st session_id).2 = st ∧
    (stream_status (stream_stop st session_id).2 session_id).1
      = (stream_stop st session_id).1 :=
  ⟨rfl, rfl, rfl⟩

/-- C7: for a session id bound in neither store, `get_history` returns the
empty sequence and `stream_status` returns the empty string, with no state
change and no failure. -/
theorem unknown_session_empty_results (st : ServerState) (session_id : String)
    (hconv : dictGet st.conversation_sessions session_id = none)
    (hlive : dictGet st.live_transcripts session_id = none) :
    get_history st session_id = [] ∧
    (stream_status st session_id).1 = "" ∧
    (stream_status st session_id).2 = st := by
  simp [get_history, stream_status, hconv, hlive]

theorem unknown_session_empty_results_witness :
    dictGet (ServerState.mk [] []).conversation_sessions "s1" = none ∧
    dictGet (ServerState.mk [] []).live_transcripts "s1" = none ∧
    get_history ⟨[], []⟩ "s1" = [] ∧
    (stream_status ⟨[], []⟩ "s1").1 = "" := by
  refine ⟨rfl, rfl, ?_, ?_⟩
  · exact (unknown_session_empty_results ⟨[], []⟩ "s1" rfl rfl).1
  · exact (unknown_session_empty_results ⟨[], []⟩ "s1" rfl rfl).2.1

/-- C9: `clear_session` removes the session's turn sequence when present,
is a no-op (and not an error) when absent, leaves the transcript store
alone, and in both cases a subsequent `get_history` yields `[]`. -/
theorem clear_session_spec (st : ServerState) (session_id : String) :
    dictGet (clear_session st session_id).conversation_sessions session_id = none ∧
    get_history (clear_session st session_id) session_id = [] ∧
    (dictGet st.conversation_sessions session_id = none →
      clear_session st session_id = st) ∧
    (clear_session st session_id).live_transcripts = st.live_transcripts := by
  cases hc : dictGet st.conversation_sessions session_id with
  | none => simp [clear_session, hc, get_history]
  | some hist =>
    simp [clear_session, hc, get_history, dictGet_dictDel_self]

theorem clear_session_spec_witness :
    dictGet (ServerState.mk [] []).conversation_sessions "s1" = none ∧
    clear_session ⟨[], []⟩ "s1" = ⟨[], []⟩ :=
  ⟨rfl, (clear_session_spec ⟨[], []⟩ "s1").2.2.1 rfl⟩

/-- C6: the Transport Adapter operations `transcribe_audio_stream` and
`text_to_speech` never let an exception escape (`Except.error` is never
returned), and on provider exception, not-recognised audio, non-200
status, or missing configuration they return `none`. -/
theorem transport_adapter_fail_soft :
    (∀ (cfg : Bool) (call : CallOutcome RecognitionResult),
        ∃ t, transcribe_audio_stream cfg call = Except.ok t) ∧
    (∀ (key : Bool) (call : CallOutcome (Nat × List Nat)),
        ∃ b, text_to_speech key call = Except.ok b) ∧
    (∀ e, transcribe_audio_stream true (CallOutcome.exn e) = Except.ok none) ∧
    (∀ call, transcribe_audio_stream false call = Except.ok none) ∧
    (∀ t, transcribe_audio_stream true
        (CallOutcome.ok ⟨"ResultReason.NoMatch", t⟩) = Except.ok none) ∧
    (∀ e, text_to_speech true (CallOutcome.exn e) = Except.ok none) ∧
    (∀ call, text_to_speech false call = Except.ok none) ∧
    (∀ (s : Nat) (body : List Nat), s ≠ 200 →
        text_to_speech true (CallOutcome.ok (s, body)) = Except.ok none) := by
  refine ⟨?_, ?_, fun e => rfl, fun call => rfl, fun t => rfl,
    fun e => rfl, fun call => rfl, ?_⟩
  · intro cfg call
    cases cfg with
    | false => exact ⟨none, rfl⟩
    | true =>
      cases call with
      | exn e => exact ⟨none, rfl⟩
      | ok r =>
        by_cases h1 : r.reasonName = "ResultReason.RecognizedSpeech"
        · exact ⟨some r.text, by simp [transcribe_audio_stream, h1]⟩
        · by_cases h2 : r.reasonName = "ResultReason.NoMatch"
          · exact ⟨none, by simp [transcribe_audio_stream, h1, h2]⟩
          · exact ⟨none, by simp [transcribe_audio_stream, h1, h2]⟩
  · intro key call
    cases key with
    | false => exact ⟨none, rfl⟩
    | true =>
      cases call with
      | exn e => exact ⟨none, rfl⟩
      | ok r =>
        by_cases h : r.1 = 200
        · exact ⟨some r.2, by simp [text_to_speech, h]⟩
        · exact ⟨none, by simp [text_to_speech, h]⟩
  · intro s body h
    simp [text_to_speech, h]

theorem transport_adapter_fail_soft_witness :
    (404 : Nat) ≠ 200 ∧
    text_to_speech true (CallOutcome.ok (404, [])) = Except.ok none :=
  ⟨by decide, transport_adapter_fail_soft.2.2.2.2.2.2.2 404 [] (by decide)⟩

/-- C3: the message sequence built for the generation call is the
intent-selected system prompt, then at most the last 6 entries of the
prior history (a suffix of it, exactly 6 once the history is at least 6
long, older entries dropped), with the current user message last. -/
theorem generation_context_window (user_message intent : String)
    (conversation_history : List Turn) :
    generate_messages user_message intent conversation_history
      = { role := "system", content := select_system_prompt intent }
          :: (takeLast 6 conversation_history
              ++ [{ role := "user", content := user_message }]) ∧
    (takeLast 6 conversation_history).length ≤ 6 ∧
    List.IsSuffix (takeLast 6 conversation_history) conversation_history ∧
    (6 ≤ conversation_history.length →
      (takeLast 6 conversation_history).length = 6) ∧
    (generate_messages user_message intent conversation_history).getLast?
      = some { role := "user", content := user_message } := by
  refine ⟨rfl, ?_, ?_, ?_, ?_⟩
  · simp only [takeLast, List.length_drop]
    omega
  · exact List.drop_suffix _ _
  · intro h
    simp only [takeLast, List.length_drop]
    omega
  · have h : generate_messages user_message intent conversation_history
        = ({ role := "system", content := select_system_prompt intent }
            :: takeLast 6 conversation_history)
          ++ [{ role := "user", content := user_message }] := by
      simp [generate_messages]
    rw [h]
    exact List.getLast?_concat _

theorem generation_context_window_witness :
    6 ≤ (List.replicate 100 (Turn.mk "user" "x")).length ∧
    (takeLast 6 (List.replicate 100 (Turn.mk "user" "x"))).length = 6 :=
  ⟨by simp, (generation_context_window "m" "other"
      (List.replicate 100 (Turn.mk "user" "x"))).2.2.2.1 (by simp)⟩

/-- C1 counterexample: a whitespace-only message (`" "`) is NOT rejected
by `converse` — Python `if not user_message` only rejects the empty
string — and the turn pair IS appended to the session history. -/
theorem converse_whitespace_not_rejected :
    pyStrip " " = "" ∧
    (converse ⟨[], []⟩ false noProviderClassify noProviderGen " " "s1").1
      = ConverseResponse.ok "other" 0 "OpenAI not configured" not_configured_reply ∧
    get_history (converse ⟨[], []⟩ false noProviderClassify noProviderGen " " "s1").2 "s1"
      = [{ role := "user", content := " " },
         { role := "assistant", content := not_configured_reply }] := by
  refine ⟨by decide, ?_, ?_⟩
  · simp [converse, classify_intent, generate_response, get_history]
  · simp [converse, classify_intent, generate_response, get_history,
      dictGet_dictSet_self, dictGet]

/-- C1 (amended): `converse` rejects exactly the empty `user_message` with
the `"No message provided"` client error and leaves the state untouched;
every non-empty message (whitespace-only included) passes validation. -/
theorem converse_empty_rejection (st : ServerState) (clientConfigured : Bool)
    (cp : String → ClassifyOutcome) (gp : List Turn → GenOutcome)
    (session_id user_message : String) :
    (converse st clientConfigured cp gp "" session_id).1
      = ConverseResponse.invalidInput "No message provided" ∧
    (converse st clientConfigured cp gp "" session_id).2 = st ∧
    (user_message ≠ "" →
      ∀ r, (converse st clientConfigured cp gp user_message session_id).1
        ≠ ConverseResponse.invalidInput r) := by
  refine ⟨rfl, rfl, ?_⟩
  intro hmsg r
  simp [converse, hmsg]

theorem converse_empty_rejection_witness :
    ("hi" : String) ≠ "" ∧
    (∀ r, (converse ⟨[], []⟩ false noProviderClassify noProviderGen "hi" "s1").1
      ≠ ConverseResponse.invalidInput r) :=
  ⟨by decide, (converse_empty_rejection ⟨[], []⟩ false noProviderClassify
      noProviderGen "s1" "hi").2.2 (by decide)⟩

/-- C10: with the OpenAI client unconfigured, every non-empty turn still
succeeds: intent `"other"`, confidence `0.0`, reasoning
`"OpenAI not configured"`, response the fixed not-configured string
(distinct from the generation-failure apology), and the user/assistant
pair is still appended to the session history. -/
theorem converse_unconfigured_client (st : ServerState)
    (cp : String → ClassifyOutcome) (gp : List Turn → GenOutcome)
    (user_message session_id : String) (hmsg : user_message ≠ "") :
    (converse st false cp gp user_message session_id).1
      = ConverseResponse.ok "other" 0 "OpenAI not configured"
          "I'm sorry, but I'm having trouble processing your request right now." ∧
    get_history (converse st false cp gp user_message session_id).2 session_id
      = get_history st session_id ++
        [{ role := "user", content := user_message },
         { role := "assistant",
           content := "I'm sorry, but I'm having trouble processing your request right now." }] ∧
    ("I'm sorry, but I'm having trouble processing your request right now."
      ≠ generation_error_reply) := by
  refine ⟨?_, ?_, by decide⟩
  · simp [converse, hmsg, classify_intent, generate_response, not_configured_reply]
  · simp [converse, hmsg, classify_intent, generate_response, not_configured_reply,
      get_history, dictGet_dictSet_self]

theorem converse_unconfigured_client_witness :
    ("hello" : String) ≠ "" ∧
    (converse ⟨[], []⟩ false noProviderClassify noProviderGen "hello" "s1").1
      = ConverseResponse.ok "other" 0 "OpenAI not configured"
          "I'm sorry, but I'm having trouble processing your request right now." :=
  ⟨by decide, (converse_unconfigured_client ⟨[], []⟩ noProviderClassify
      noProviderGen "hello" "s1" (by decide)).1⟩

/-- C4: every `converse` call that passes validation appends exactly the
two turns `{user, user_message}` then `{assistant, response}` to the
session's history, where the response is generated from the history as it
was BEFORE this turn was added; all prior entries stay a prefix, other
sessions and the transcript store are untouched. -/
theorem handle_turn_appends_two_turns (st : ServerState)
    (clientConfigured : Bool) (cp : String → ClassifyOutcome)
    (gp : List Turn → GenOutcome) (user_message session_id : String)
    (hmsg : user_message ≠ "") :
    get_history (converse st clientConfigured cp gp user_message session_id).2 session_id
      = get_history st session_id ++
        [{ role := "user", content := user_message },
         { role := "assistant",
           content := generate_response clientConfigured gp user_message
             (classify_intent clientConfigured cp user_message).intent
             (get_history st session_id) }] ∧
    (∀ sid', sid' ≠ session_id →
      dictGet (converse st clientConfigured cp gp user_message session_id).2.conversation_sessions sid'
        = dictGet st.conversation_sessions sid') ∧
    (converse st clientConfigured cp gp user_message session_id).2.live_transcripts
      = st.live_transcripts ∧
    List.IsPrefix (get_history st session_id)
      (get_history (converse st clientConfigured cp gp user_message session_id).2 session_id) := by
  have h1 : get_history (converse st clientConfigured cp gp user_message session_id).2 session_id
      = get_history st session_id ++
        [{ role := "user", content := user_message },
         { role := "assistant",
           content := generate_response clientConfigured gp user_message
             (classify_intent clientConfigured cp user_message).intent
             (get_history st session_id) }] := by
    simp [converse, hmsg, get_history, dictGet_dictSet_self]
  refine ⟨h1, ?_, ?_, ?_⟩
  · intro sid' hne
    simp only [converse]
    rw [if_neg hmsg]
    exact dictGet_dictSet_ne _ _ _ _ hne
  · simp [converse, hmsg]
  · rw [h1]
    exact List.prefix_append _ _

theorem handle_turn_appends_two_turns_witness :
    ("hello" : String) ≠ "" ∧
    get_history (converse ⟨[], []⟩ false noProviderClassify noProviderGen "hello" "s1").2 "s1"
      = get_history ⟨[], []⟩ "s1" ++
        [{ role := "user", content := "hello" },
         { role := "assistant",
           content := generate_response false noProviderGen "hello"
             (classify_intent false noProviderClassify "hello").intent
             (get_history ⟨[], []⟩ "s1") }] :=
  ⟨by decide, (handle_turn_appends_two_turns ⟨[], []⟩ false noProviderClassify
      noProviderGen "hello" "s1" (by decide)).1⟩

/-- C2: a failed classification call yields intent `"other"`, confidence
`0.0` and an error-describing reasoning, and execution still reaches
generation with the `"other"` template; a failed generation call yields
the fixed apology string, which is still appended as the assistant turn
(the turn is treated as successful). -/
theorem handle_turn_provider_failure_policy (st : ServerState)
    (session_id user_message e eg intent : String) (history : List Turn)
    (cp : String → ClassifyOutcome) (gp : List Turn → GenOutcome)
    (hmsg : user_message ≠ "") :
    classify_intent true (fun _ => ClassifyOutcome.failure e) user_message
      = { intent := "other", confidence := 0, reasoning := "Error: " ++ e } ∧
    (converse st true (fun _ => ClassifyOutcome.failure e) gp user_message session_id).1
      = ConverseResponse.ok "other" 0 ("Error: " ++ e)
          (generate_response true gp user_message "other" (get_history st session_id)) ∧
    select_system_prompt "other" = other_prompt ∧
    (generate_messages user_message "other" history).head?
      = some { role := "system", content := other_prompt } ∧
    generate_response true (fun _ => GenOutcome.failure eg) user_message intent history
      = "I apologize, but I'm having trouble understanding. Could you please rephrase that?" ∧
    get_history (converse st true cp (fun _ => GenOutcome.failure eg) user_message session_id).2 session_id
      = get_history st session_id ++
        [{ role := "user", content := user_message },
         { role := "assistant",
           content := "I apologize, but I'm having trouble understanding. Could you please rephrase that?" }] ∧
    (converse st true cp (fun _ => GenOutcome.failure eg) user_message session_id).1
      = ConverseResponse.ok (classify_intent true cp user_message).intent
          (classify_intent true cp user_message).confidence
          (classify_intent true cp user_message).reasoning
          "I apologize, but I'm having trouble understanding. Could you please rephrase that?" := by
  have h2 : (converse st true (fun _ => ClassifyOutcome.failure e) gp user_message session_id).1
      = ConverseResponse.ok "other" 0 ("Error: " ++ e)
          (generate_response true gp user_message "other" (get_history st session_id)) := by
    simp [converse, hmsg, classify_intent]
  have h3 : select_system_prompt "other" = other_prompt := by rfl
  have h4 : (generate_messages user_message "other" history).head?
      = some { role := "system", content := other_prompt } := by
    simp [generate_messages, h3]
  have h6 : get_history (converse st true cp (fun _ => GenOutcome.failure eg) user_message session_id).2 session_id
      = get_history st session_id ++
        [{ role := "user", content := user_message },
         { role := "assistant",
           content := "I apologize, but I'm having trouble understanding. Could you please rephrase that?" }] := by
    simp [converse, hmsg, generate_response, generation_error_reply,
      get_history, dictGet_dictSet_self]
  have h7 : (converse st true cp (fun _ => GenOutcome.failure eg) user_message session_id).1
      = ConverseResponse.ok (classify_intent true cp user_message).intent
          (classify_intent true cp user_message).confidence
          (classify_intent true cp user_message).reasoning
          "I apologize, but I'm having trouble understanding. Could you please rephrase that?" := by
    simp [converse, hmsg, generate_response, generation_error_reply]
  exact ⟨rfl, h2, h3, h4, rfl, h6, h7⟩

theorem handle_turn_provider_failure_policy_witness :
    ("hello" : String) ≠ "" ∧
    get_history (converse ⟨[], []⟩ true noProviderClassify
        (fun _ => GenOutcome.failure "boom") "hello" "s1").2 "s1"
      = get_history ⟨[], []⟩ "s1" ++
        [{ role := "user", content := "hello" },
         { role := "assistant",
           content := "I apologize, but I'm having trouble understanding. Could you please rephrase that?" }] :=
  ⟨by decide, (handle_turn_provider_failure_policy ⟨[], []⟩ "s1" "hello" "e"
      "boom" "other" [] noProviderClassify noProviderGen (by decide)).2.2.2.2.2.1⟩

/-- C5: `stream_start` resets the session buffer to `""`; a chunk with a
non-empty transcription appends it to the buffer with a single-space
separator and trims the result, a chunk with no transcription leaves the
buffer value unchanged and reports empty partial text; starting `"s1"` and
submitting chunks transcribed as `"hello"` then `"world"` yields the
buffer `"hello world"`. -/
theorem accumulator_append_semantics (st : ServerState)
    (session_id t : String) (ht : t ≠ "") :
    (stream_status (stream_start st session_id) session_id).1 = "" ∧
    (stream_chunk st (some t) session_id).1.chunkText = t ∧
    (stream_status (stream_chunk st (some t) session_id).2 session_id).1
      = pyStrip ((stream_status st session_id).1 ++ " " ++ t) ∧
    (stream_chunk st (some t) session_id).1.transcript
      = pyStrip ((stream_status st session_id).1 ++ " " ++ t) ∧
    (stream_chunk st none session_id).1.chunkText = "" ∧
    (stream_status (stream_chunk st none session_id).2 session_id).1
      = (stream_status st session_id).1 ∧
    (stream_status
        (stream_chunk
          (stream_chunk (stream_start ⟨[], []⟩ "s1") (some "hello") "s1").2
          (some "world") "s1").2 "s1").1 = "hello world" := by
  refine ⟨?_, ?_, ?_, ?_, ?_, ?_, ?_⟩
  · simp [stream_status, stream_start, dictGet_dictSet_self]
  · simp [stream_chunk]
  · cases hb : dictGet st.live_transcripts session_id with
    | none => simp [stream_chunk, stream_status, hb, ht, dictGet_dictSet_self]
    | some b => simp [stream_chunk, stream_status, hb, ht, dictGet_dictSet_self]
  · cases hb : dictGet st.live_transcripts session_id with
    | none => simp [stream_chunk, stream_status, hb, ht, dictGet_dictSet_self]
    | some b => simp [stream_chunk, stream_status, hb, ht, dictGet_dictSet_self]
  · simp [stream_chunk]
  · cases hb : dictGet st.live_transcripts session_id with
    | none => simp [stream_chunk, stream_status, hb, dictGet_dictSet_self]
    | some b => simp [stream_chunk, stream_status, hb]
  · decide

theorem accumulator_append_semantics_witness :
    ("hello" : String) ≠ "" ∧
    (stream_status (stream_chunk ⟨[], []⟩ (some "hello") "s1").2 "s1").1
      = pyStrip ((stream_status (⟨[], []⟩ : ServerState) "s1").1 ++ " " ++ "hello") :=
  ⟨by decide, (accumulator_append_semantics ⟨[], []⟩ "s1" "hello" (by decide)).2.2.1⟩

end CIVR
